import Mathlib

/-!
Verification development for sh-interrupt/catcher.c: a terminal raw-mode
demo that installs signal handlers and restores the terminal mode on exit.

The shallow embedding models the global state of the C program (the
termios snapshots, the cleanup flag, the descriptor), the device-side
state (the current terminal attributes, the validity of the handle), and
the observable effects of each operation as an explicit effect trace.
Machine integers: tcflag_t is a 32-bit unsigned integer, modelled as Nat
with an explicit 32-bit mask where the code masks bits; cc_t entries are
bytes, modelled as Nat.  Numeric constants (ICANON, ECHO, VQUIT, NCCS)
are the Linux termios header values the program compiles against.
-/

namespace Catcher

/-- tcflag_t is 32 bits wide; flag masking uses this all-ones mask. -/
def mask32 : Nat := 2 ^ 32 - 1

/-- ICANON flag bit (0o0002, bit 1). -/
def ICANON : Nat := 2

/-- ECHO flag bit (0o0010, bit 3). -/
def ECHO : Nat := 8

/-- Index of the quit control character in c_cc (Linux value). -/
def VQUIT : Nat := 1

/-- Number of entries of the c_cc control-character table. -/
def NCCS : Nat := 32

/-- CTRL macro from the source: (x & 037). -/
def CTRL (x : Nat) : Nat := x &&& 31

/-- CEOF = CTRL of the letter d (code 100), the end-of-input control
character, value 4. -/
def CEOF : Nat := CTRL 100

/-- The sentinel quit character the program installs: CTRL of the letter g
(code 103), value 7. -/
def QUIT_SENTINEL : Nat := CTRL 103

/-- The fields of struct termios the program reads or writes: the four
flag words and the control-character table. -/
structure Termios where
  c_iflag : Nat
  c_oflag : Nat
  c_cflag : Nat
  c_lflag : Nat
  c_cc : List Nat
deriving DecidableEq, Repr

/-- The global variables of catcher.c: struct termios ttystate,
struct termios oldttystate, int cleanupP = 0, int _global_fd. -/
structure Globals where
  ttystate : Termios
  oldttystate : Termios
  cleanupP : Bool
  _global_fd : Int
deriving DecidableEq, Repr

/-- Program globals together with the device-side state: the current
terminal attributes and whether the OS-side handle is open and valid. -/
structure Sys where
  globals : Globals
  device : Termios
  fdValid : Bool
deriving DecidableEq, Repr

/-- Observable effects: each system call or stdio call the program makes,
in order.  ePrintf and ePerror are formatted stdio output; eWrite is the
raw asynchronous-signal-safe write(1, ...); eTcsetattr is an attribute
write attempt on the device; eEchoTyped c stands for the formatted echo
line that prints the typed character and its numeric value. -/
inductive Effect where
  | eOpenCall : Effect
  | eTcgetpgrp : Effect
  | eTcsetpgrp : Effect
  | eTcgetattr : Effect
  | eTcsetattr : Int → Termios → Effect
  | eClose : Int → Effect
  | ePrintf : String → Effect
  | ePerror : String → Effect
  | eWrite : String → Effect
  | eSigaction : Nat → Effect
  | eEchoTyped : Nat → Effect
  | eExitingOnSignal : Nat → Effect
  | eExit : Nat → Effect
deriving DecidableEq, Repr

/-- printf text of the reset message inside cleanup (sic, as in source). -/
def msgResetting : String := "Resettung terminal\n"

/-- printf text of the zero-byte-read exit message (sic, as in source). -/
def msgEofCanon : String := "Exiting on stdin EOF (should happen only in cannon mode\n"

/-- printf text of the CEOF-byte exit message. -/
def msgEofRaw : String := "Exiting on stdin EOF (hopefully only in noncannon mode)\n"

/-- printf text of the banner before the read loop. -/
def msgBanner : String := "Use C-c and C-g for async actions, end with C-d\n"

/-- void cleanup(void), catcher.c lines 49-58:
if (cleanupP) { printf("Resettung terminal\n");
  if (tcsetattr(_global_fd, TCSANOW, &oldttystate) < 0)
    perror("ioctl reset /dev/tty"); }
close(_global_fd);
Note that cleanupP is not modified.  The restore attempt succeeds exactly
when the handle is still valid; on success the device attributes become
the saved oldttystate.  The close invalidates the handle. -/
def cleanup (s : Sys) : Sys × List Effect :=
  if s.globals.cleanupP then
    let restoreOk := s.fdValid
    let s1 := if restoreOk then { s with device := s.globals.oldttystate } else s
    ({ s1 with fdValid := false },
      [Effect.ePrintf msgResetting,
       Effect.eTcsetattr s.globals._global_fd s.globals.oldttystate] ++
      (if restoreOk then [] else [Effect.ePerror "ioctl reset /dev/tty"]) ++
      [Effect.eClose s.globals._global_fd])
  else
    ({ s with fdValid := false }, [Effect.eClose s.globals._global_fd])

/-- static void exit_handler(int sig), catcher.c lines 60-71:
cleanup(); if (sig) printf("Exiting on signal %d\n", sig); exit(0).
Returns the final state, the effects, and the exit status (always 0). -/
def exit_handler (sig : Nat) (s : Sys) : Sys × List Effect × Nat :=
  let p := cleanup s
  (p.1,
   p.2 ++ (if sig ≠ 0 then [Effect.eExitingOnSignal sig] else []) ++ [Effect.eExit 0],
   0)

/-- void handler2(int sig), catcher.c lines 35-40: a single raw write of a
fixed message to descriptor 1; no state is touched. -/
def handler2 (s : Sys) : Sys × List Effect :=
  (s, [Effect.eWrite "Async action on sigint (2)\n"])

/-- void handler3(int sig), catcher.c lines 42-47: a single raw write of a
fixed message to descriptor 1; no state is touched. -/
def handler3 (s : Sys) : Sys × List Effect :=
  (s, [Effect.eWrite "Async action on sigquit (3)\n"])

/-- Result of one read(_global_fd, c, 1) call: one byte, zero bytes (end
of input), failure with errno EINTR, or failure with any other errno. -/
inductive ReadResult where
  | byte : Nat → ReadResult
  | zero : ReadResult
  | errIntr : ReadResult
  | errOther : ReadResult
deriving DecidableEq, Repr

/-- How a run ends: the process exited with a status, or the supplied
input list ran out while the loop was still blocked on a read. -/
inductive Outcome where
  | exited : Nat → Outcome
  | pendingRead : Outcome
deriving DecidableEq, Repr

/-- The read loop of main, catcher.c lines 131-148: one-byte reads;
EINTR retries silently; other errors, a zero-byte read, and a CEOF byte
all report and funnel into exit_handler(0); any other byte is echoed with
its numeric value and the loop continues. -/
def readLoop : List ReadResult → Sys → Sys × List Effect × Outcome
  | [], s => (s, [], Outcome.pendingRead)
  | ReadResult.errIntr :: rs, s => readLoop rs s
  | ReadResult.errOther :: _rs, s =>
      let p := exit_handler 0 s
      (p.1, Effect.ePerror "stdin read" :: p.2.1, Outcome.exited p.2.2)
  | ReadResult.zero :: _rs, s =>
      let p := exit_handler 0 s
      (p.1, Effect.ePrintf msgEofCanon :: p.2.1, Outcome.exited p.2.2)
  | ReadResult.byte b :: rs, s =>
      if b = CEOF then
        let p := exit_handler 0 s
        (p.1, Effect.ePrintf msgEofRaw :: p.2.1, Outcome.exited p.2.2)
      else
        let p := readLoop rs s
        (p.1, Effect.eEchoTyped b :: p.2.1, p.2.2)

/-- The environment a run of main sees: the return value of
open("/dev/tty", O_RDONLY), the return value of tcgetpgrp, the success of
tcsetpgrp, tcgetattr and tcsetattr, and the terminal attributes the
device currently holds (what tcgetattr would return). -/
structure Env where
  openRet : Int
  pgrpRet : Int
  setpgrpOk : Bool
  getattrOk : Bool
  setattrOk : Bool
  deviceAttrs : Termios
deriving DecidableEq, Repr

/-- A zeroed struct termios: the two termios globals have static storage
duration and are zero-initialized before main runs. -/
def termiosZero : Termios :=
  { c_iflag := 0, c_oflag := 0, c_cflag := 0, c_lflag := 0,
    c_cc := List.replicate NCCS 0 }

/-- State at entry of main, after the assignment _global_fd = open(...):
globals zero-initialized except the descriptor, the device holding its
current attributes, the handle valid exactly when open returned a
nonnegative descriptor. -/
def sysInit (env : Env) : Sys :=
  { globals :=
      { ttystate := termiosZero, oldttystate := termiosZero,
        cleanupP := false, _global_fd := env.openRet },
    device := env.deviceAttrs,
    fdValid := decide (0 ≤ env.openRet) }

/-- The working mode computed by catcher.c lines 104-107:
ttystate = oldttystate; ttystate.c_lflag &= ~ICANON;
ttystate.c_lflag &= ~ECHO; ttystate.c_cc[VQUIT] = CTRL of letter g.
The C complement of a single-bit mask on a 32-bit tcflag_t is the 32-bit
all-ones mask xor the bit. -/
def workingModeOf (old : Termios) : Termios :=
  let t1 := { old with c_lflag := old.c_lflag &&& (mask32 ^^^ ICANON) }
  let t2 := { t1 with c_lflag := t1.c_lflag &&& (mask32 ^^^ ECHO) }
  { t2 with c_cc := t2.c_cc.set VQUIT QUIT_SENTINEL }

/-- Result of the startup sequence (catcher.c lines 82-130): either the
state and trace at entry of the read loop, or the trace and exit status
of a failed startup. -/
inductive StartupResult where
  | ok : Sys → List Effect → StartupResult
  | failed : List Effect → Nat → StartupResult
deriving DecidableEq, Repr

/-- The startup sequence of main, catcher.c lines 82-130, in source
order: open (failure when the returned descriptor is below 1), tcgetpgrp,
tcsetpgrp, tcgetattr into oldttystate, compute ttystate and tcsetattr it,
set cleanupP, install the four handlers, print the banner.  Every failure
prints a diagnostic and funnels into exit_handler(0). -/
def startup (env : Env) : StartupResult :=
  let s0 := sysInit env
  if env.openRet < 1 then
    let p := exit_handler 0 s0
    StartupResult.failed
      ([Effect.eOpenCall, Effect.ePerror "open /dev/tty"] ++ p.2.1) p.2.2
  else
  if env.pgrpRet < 0 then
    let p := exit_handler 0 s0
    StartupResult.failed
      ([Effect.eOpenCall, Effect.eTcgetpgrp,
        Effect.ePerror "Can\x27t get pgrp\n"] ++ p.2.1) p.2.2
  else
  if env.setpgrpOk = false then
    let p := exit_handler 0 s0
    StartupResult.failed
      ([Effect.eOpenCall, Effect.eTcgetpgrp, Effect.eTcsetpgrp,
        Effect.ePerror "Can\x27t set pgrp\n"] ++ p.2.1) p.2.2
  else
  if env.getattrOk = false then
    let p := exit_handler 0 s0
    StartupResult.failed
      ([Effect.eOpenCall, Effect.eTcgetpgrp, Effect.eTcsetpgrp,
        Effect.eTcgetattr, Effect.ePerror "ioctl1 /dev/tty"] ++ p.2.1) p.2.2
  else
  let old := env.deviceAttrs
  let work := workingModeOf old
  let s1 := { s0 with globals :=
      { s0.globals with oldttystate := old, ttystate := work } }
  if env.setattrOk = false then
    let p := exit_handler 0 s1
    StartupResult.failed
      ([Effect.eOpenCall, Effect.eTcgetpgrp, Effect.eTcsetpgrp,
        Effect.eTcgetattr, Effect.eTcsetattr s1.globals._global_fd work,
        Effect.ePerror "ioctl2 /dev/tty"] ++ p.2.1) p.2.2
  else
  let s2 := { s1 with
    device := work,
    globals := { s1.globals with cleanupP := true } }
  StartupResult.ok s2
    [Effect.eOpenCall, Effect.eTcgetpgrp, Effect.eTcsetpgrp,
     Effect.eTcgetattr, Effect.eTcsetattr s1.globals._global_fd work,
     Effect.eSigaction 2, Effect.eSigaction 3,
     Effect.eSigaction 1, Effect.eSigaction 15,
     Effect.ePrintf msgBanner]

/-- The whole of main on a given environment and input list: startup,
then the read loop on the startup state. -/
def mainRun (env : Env) (input : List ReadResult) : List Effect × Outcome :=
  match startup env with
  | StartupResult.failed t c => (t, Outcome.exited c)
  | StartupResult.ok s t =>
      let p := readLoop input s
      (t ++ p.2.1, p.2.2)

/-- The effect trace of startup, whichever way it ended. -/
def startupTrace (env : Env) : List Effect :=
  match startup env with
  | StartupResult.ok _ t => t
  | StartupResult.failed t _ => t

/-- The read-loop entry state of a successful startup. -/
def startupState (env : Env) : Option Sys :=
  match startup env with
  | StartupResult.ok s _ => some s
  | StartupResult.failed _ _ => none

/-- The five startup calls the ordering claims talk about. -/
inductive StartupCall where
  | cOpen : StartupCall
  | cGetpgrp : StartupCall
  | cSetpgrp : StartupCall
  | cGetattr : StartupCall
  | cSetattr : StartupCall
deriving DecidableEq, Repr

/-- Project an effect to the startup call it is, if any. -/
def startupCallOf : Effect → Option StartupCall
  | Effect.eOpenCall => some StartupCall.cOpen
  | Effect.eTcgetpgrp => some StartupCall.cGetpgrp
  | Effect.eTcsetpgrp => some StartupCall.cSetpgrp
  | Effect.eTcgetattr => some StartupCall.cGetattr
  | Effect.eTcsetattr _ _ => some StartupCall.cSetattr
  | _ => none

/-- The startup-call order of a trace. -/
def startupCalls (t : List Effect) : List StartupCall :=
  t.filterMap startupCallOf

/-- The startup order as the specification sentence states it: open,
then capture the original mode, then get and re-assert the foreground
process group, then apply the working mode.  Taken from the
specification wording, to be compared with the order of the source. -/
def specStartupOrder : List StartupCall :=
  [StartupCall.cOpen, StartupCall.cGetattr, StartupCall.cGetpgrp,
   StartupCall.cSetpgrp, StartupCall.cSetattr]

/-- Is the effect an attribute-write attempt on the device. -/
def isRestoreEff : Effect → Bool
  | Effect.eTcsetattr _ _ => true
  | _ => false

/-- Is the effect a close attempt. -/
def isCloseEff : Effect → Bool
  | Effect.eClose _ => true
  | _ => false

/-- Is the effect formatted stdio output (printf or perror). -/
def isStdioEff : Effect → Bool
  | Effect.ePrintf _ => true
  | Effect.ePerror _ => true
  | Effect.eExitingOnSignal _ => true
  | _ => false

/-- Is the effect the process-ending exit call. -/
def isExitEff : Effect → Bool
  | Effect.eExit _ => true
  | _ => false

/-- Number of attribute-write attempts in a trace. -/
def countRestores (t : List Effect) : Nat := (t.filter isRestoreEff).length

/-- Number of close attempts in a trace. -/
def countCloses (t : List Effect) : Nat := (t.filter isCloseEff).length

/-- Number of exit calls in a trace. -/
def countExits (t : List Effect) : Nat := (t.filter isExitEff).length

/-- Modelled from the spec and the POSIX open contract (open is outside
this repository): a successful open returns a nonnegative descriptor, so
a return value r denotes a successful open exactly when 0 ≤ r. -/
def openSucceededOS (r : Int) : Bool := decide (0 ≤ r)

/-- A concrete original mode with canonical and echo set, some further
flag bits, and a populated control-character table. -/
def sampleAttrs : Termios :=
  { c_iflag := 1, c_oflag := 2, c_cflag := 3,
    c_lflag := 35387,
    c_cc := ((List.replicate NCCS 0).set VQUIT 28).set 4 21 }

/-- A concrete fully-successful environment. -/
def envOk : Env :=
  { openRet := 3, pgrpRet := 100, setpgrpOk := true, getattrOk := true,
    setattrOk := true, deviceAttrs := sampleAttrs }

/-- A concrete environment whose open returns descriptor 0. -/
def envFd0 : Env := { envOk with openRet := 0 }

/-- A concrete armed state: the state right after the successful startup
on envOk. -/
def armedSys : Sys :=
  { globals :=
      { ttystate := workingModeOf sampleAttrs, oldttystate := sampleAttrs,
        cleanupP := true, _global_fd := 3 },
    device := workingModeOf sampleAttrs,
    fdValid := true }

/-- The input of the read-loop scenario: the byte a (code 97), an
interrupted read, the byte b (code 98), the end-of-input character. -/
def scenarioInput : List ReadResult :=
  [ReadResult.byte 97, ReadResult.errIntr, ReadResult.byte 98,
   ReadResult.byte CEOF]

/-! ## Helper lemmas -/

/-- cleanup touches none of the program globals; in particular it does
not clear cleanupP and does not change the saved oldttystate. -/
lemma cleanup_globals (s : Sys) : (cleanup s).1.globals = s.globals := by
  by_cases h : s.globals.cleanupP <;> by_cases h2 : s.fdValid <;>
    simp [cleanup, h, h2]

/-- cleanup always invalidates the handle. -/
lemma cleanup_fdValid (s : Sys) : (cleanup s).1.fdValid = false := by
  by_cases h : s.globals.cleanupP <;> by_cases h2 : s.fdValid <;>
    simp [cleanup, h, h2]

/-- The read loop never changes the program globals: its only state
changes go through exit_handler, hence through cleanup. -/
lemma readLoop_globals (rs : List ReadResult) (s : Sys) :
    (readLoop rs s).1.globals = s.globals := by
  induction rs generalizing s with
  | nil => rfl
  | cons r rs ih =>
    cases r with
    | errIntr => exact ih s
    | errOther => simpa [readLoop, exit_handler] using cleanup_globals s
    | zero => simpa [readLoop, exit_handler] using cleanup_globals s
    | byte b =>
      by_cases hb : b = CEOF
      · simpa [readLoop, hb, exit_handler] using cleanup_globals s
      · simpa [readLoop, hb] using ih s

/-- Bits of the 32-bit complement mask of a single bit below 32. -/
lemma testBit_mask_xor_bit {k : Nat} (hk : k < 32) (i : Nat) :
    (mask32 ^^^ 2 ^ k).testBit i = (decide (i < 32) && !decide (i = k)) := by
  rw [Nat.testBit_xor, mask32, Nat.testBit_two_pow_sub_one,
    Nat.testBit_two_pow]
  by_cases hik : i = k
  · subst hik
    simp [hk]
  · have hki : k ≠ i := fun h => hik h.symm
    by_cases hlt : i < 32 <;> simp [hlt, hik, hki]

/-- Bits of the ICANON mask. -/
lemma icanon_testBit (i : Nat) : ICANON.testBit i = decide (i = 1) := by
  show ((2:Nat) ^ 1).testBit i = decide (i = 1)
  rw [Nat.testBit_two_pow]
  simp [eq_comm]

/-- Bits of the ECHO mask. -/
lemma echo_testBit (i : Nat) : ECHO.testBit i = decide (i = 3) := by
  show ((2:Nat) ^ 3).testBit i = decide (i = 3)
  rw [Nat.testBit_two_pow]
  simp [eq_comm]

/-- Bitwise description of the working-mode local flag word: a bit is set
exactly when it was set in the original mode, lies below bit 32, and is
neither the ICANON bit (1) nor the ECHO bit (3). -/
lemma workingModeOf_lflag_testBit (old : Termios) (i : Nat) :
    (workingModeOf old).c_lflag.testBit i =
      (old.c_lflag.testBit i && decide (i < 32) &&
        !decide (i = 1) && !decide (i = 3)) := by
  show ((old.c_lflag &&& (mask32 ^^^ 2 ^ 1)) &&&
      (mask32 ^^^ 2 ^ 3)).testBit i = _
  rw [Nat.testBit_land, Nat.testBit_land,
    testBit_mask_xor_bit (by omega), testBit_mask_xor_bit (by omega)]
  cases hb : old.c_lflag.testBit i <;>
    by_cases h1 : i < 32 <;> by_cases h2 : i = 1 <;> by_cases h3 : i = 3 <;>
      simp [h1, h2, h3]

/-- Any flag word of the original mode is below 2 to the 32, so its bits
at positions 32 and above are clear. -/
lemma lflag_testBit_high {l : Nat} (hl : l < 2 ^ 32) {i : Nat}
    (hi : 32 ≤ i) : l.testBit i = false :=
  Nat.testBit_lt_two_pow
    (lt_of_lt_of_le hl (Nat.pow_le_pow_right (by omega) hi))

/-! ## Claim theorems -/

/-- C1, counterexample: teardown is not idempotent as claimed.  From a
concrete armed state, the first cleanup call leaves the Cleanup-Armed
flag set (the code never clears cleanupP), and a second call performs
one more restoration attempt and one more close, so two calls make two
restoration attempts and two closes, not one of each. -/
theorem cleanup_second_call_not_noop :
    (cleanup armedSys).1.globals.cleanupP = true ∧
    countRestores (cleanup (cleanup armedSys).1).2 = 1 ∧
    countCloses (cleanup (cleanup armedSys).1).2 = 1 ∧
    countRestores ((cleanup armedSys).2 ++ (cleanup (cleanup armedSys).1).2) = 2 := by
  decide

/-- C1, amended: teardown never clears the Cleanup-Armed flag; every
call from an armed state performs exactly one restoration attempt and
one close, so a second call repeats both (the repeated restore attempt
is merely reported when it fails, never escalated). -/
theorem cleanup_repeats_restore_when_armed (s : Sys)
    (h : s.globals.cleanupP = true) :
    (cleanup s).1.globals.cleanupP = true ∧
    countRestores (cleanup s).2 = 1 ∧
    countCloses (cleanup s).2 = 1 ∧
    countRestores ((cleanup s).2 ++ (cleanup (cleanup s).1).2) = 2 ∧
    countCloses ((cleanup s).2 ++ (cleanup (cleanup s).1).2) = 2 := by
  by_cases h2 : s.fdValid <;>
    simp [cleanup, h, h2, countRestores, countCloses,
      isRestoreEff, isCloseEff]

/-- Witness for C1 amended at the concrete armed state. -/
theorem cleanup_repeats_restore_when_armed_witness :
    armedSys.globals.cleanupP = true ∧
    ((cleanup armedSys).1.globals.cleanupP = true ∧
     countRestores (cleanup armedSys).2 = 1 ∧
     countCloses (cleanup armedSys).2 = 1 ∧
     countRestores ((cleanup armedSys).2 ++ (cleanup (cleanup armedSys).1).2) = 2 ∧
     countCloses ((cleanup armedSys).2 ++ (cleanup (cleanup armedSys).1).2) = 2) :=
  ⟨by decide, cleanup_repeats_restore_when_armed armedSys (by decide)⟩

/-- C2, counterexample: when acquire fails (open returns -1) the
teardown on the failure path still attempts a close of the absent
handle: the trace of the failed startup contains a close call. -/
theorem close_attempted_when_acquire_failed :
    startup { envOk with openRet := -1 } =
      StartupResult.failed
        [Effect.eOpenCall, Effect.ePerror "open /dev/tty",
         Effect.eClose (-1), Effect.eExit 0] 0 ∧
    countCloses (startupTrace { envOk with openRet := -1 }) = 1 ∧
    countRestores (startupTrace { envOk with openRet := -1 }) = 0 := by
  decide

/-- C2, amended: if raw-mode activation never succeeded (flag unarmed),
teardown performs no terminal-attribute write, but it unconditionally
attempts the close of the stored descriptor value, also when acquire
failed and no handle is present. -/
theorem unarmed_cleanup_only_close_attempt (s : Sys)
    (h : s.globals.cleanupP = false) :
    (cleanup s).2 = [Effect.eClose s.globals._global_fd] ∧
    countRestores (cleanup s).2 = 0 := by
  simp [cleanup, h, countRestores, isRestoreEff]

/-- Witness for C2 amended at the state after a failed open. -/
theorem unarmed_cleanup_only_close_attempt_witness :
    (sysInit { envOk with openRet := -1 }).globals.cleanupP = false ∧
    ((cleanup (sysInit { envOk with openRet := -1 })).2 =
      [Effect.eClose
        (sysInit { envOk with openRet := -1 }).globals._global_fd] ∧
     countRestores (cleanup (sysInit { envOk with openRet := -1 })).2 = 0) :=
  ⟨by decide,
   unarmed_cleanup_only_close_attempt
     (sysInit { envOk with openRet := -1 }) (by decide)⟩

/-- C3, counterexample: on a concrete fully-successful environment the
startup call order of the source differs from the order the
specification sentence states (the original mode is captured after the
process-group get and set, not immediately after the open). -/
theorem startup_order_differs_from_spec :
    startupCalls (startupTrace envOk) ≠ specStartupOrder ∧
    startupCalls (startupTrace envOk) =
      [StartupCall.cOpen, StartupCall.cGetpgrp, StartupCall.cSetpgrp,
       StartupCall.cGetattr, StartupCall.cSetattr] := by
  decide

/-- C3, amended: startup performs its steps in this order: open the
terminal, then get and re-assert the foreground process group, then
capture the original mode, then compute and apply the working mode, and
finally arm the cleanup flag. -/
theorem startup_actual_order (env : Env)
    (h1 : 1 ≤ env.openRet) (h2 : 0 ≤ env.pgrpRet)
    (h3 : env.setpgrpOk = true) (h4 : env.getattrOk = true)
    (h5 : env.setattrOk = true) :
    startupCalls (startupTrace env) =
      [StartupCall.cOpen, StartupCall.cGetpgrp, StartupCall.cSetpgrp,
       StartupCall.cGetattr, StartupCall.cSetattr] ∧
    (startupState env).map (fun s => s.globals.cleanupP) = some true := by
  have h1n : ¬ env.openRet < 1 := by omega
  have h2n : ¬ env.pgrpRet < 0 := by omega
  constructor
  · simp [startupTrace, startup, h1n, h2n, h3, h4, h5,
      startupCalls, startupCallOf]
  · simp [startupState, startup, h1n, h2n, h3, h4, h5]

/-- Witness for C3 amended at the concrete successful environment. -/
theorem startup_actual_order_witness :
    (1 ≤ envOk.openRet ∧ 0 ≤ envOk.pgrpRet) ∧
    (startupCalls (startupTrace envOk) =
      [StartupCall.cOpen, StartupCall.cGetpgrp, StartupCall.cSetpgrp,
       StartupCall.cGetattr, StartupCall.cSetattr] ∧
     (startupState envOk).map (fun s => s.globals.cleanupP) = some true) :=
  ⟨⟨by decide, by decide⟩,
   startup_actual_order envOk (by decide) (by decide) rfl rfl rfl⟩

/-- C4: round-trip restoration fidelity.  On any fully-successful
startup the captured original mode equals the device attributes of the
environment, teardown writes exactly that snapshot back to the device
(restore after enterRaw gives back M), and neither the read loop nor
teardown ever mutates the snapshot after capture. -/
theorem mode_restoration_fidelity (env : Env)
    (h1 : 1 ≤ env.openRet) (h2 : 0 ≤ env.pgrpRet)
    (h3 : env.setpgrpOk = true) (h4 : env.getattrOk = true)
    (h5 : env.setattrOk = true) :
    (startupState env).map
        (fun s => (s.globals.oldttystate, (cleanup s).1.device)) =
      some (env.deviceAttrs, env.deviceAttrs) ∧
    (∀ rs s, (readLoop rs s).1.globals.oldttystate =
      s.globals.oldttystate) ∧
    (∀ s, (cleanup s).1.globals.oldttystate = s.globals.oldttystate) := by
  have h1n : ¬ env.openRet < 1 := by omega
  have h2n : ¬ env.pgrpRet < 0 := by omega
  have hfd : decide ((0:Int) ≤ env.openRet) = true := decide_eq_true (by omega)
  refine ⟨?_, fun rs s => by rw [readLoop_globals],
    fun s => by rw [cleanup_globals]⟩
  simp [startupState, startup, h1n, h2n, h3, h4, h5, sysInit, cleanup, hfd]

/-- Witness for C4 at the concrete successful environment. -/
theorem mode_restoration_fidelity_witness :
    (1 ≤ envOk.openRet ∧ 0 ≤ envOk.pgrpRet) ∧
    ((startupState envOk).map
        (fun s => (s.globals.oldttystate, (cleanup s).1.device)) =
      some (envOk.deviceAttrs, envOk.deviceAttrs) ∧
     (∀ rs s, (readLoop rs s).1.globals.oldttystate =
       s.globals.oldttystate) ∧
     (∀ s, (cleanup s).1.globals.oldttystate = s.globals.oldttystate)) :=
  ⟨⟨by decide, by decide⟩,
   mode_restoration_fidelity envOk (by decide) (by decide) rfl rfl rfl⟩

/-- C5: the working mode differs from the original mode only in the
cleared canonical-mode flag (bit 1), the cleared echo flag (bit 3) and
the quit control character set to the sentinel 7; the other three flag
words, every other bit of c_lflag and every other c_cc entry are
unchanged; and any fully-successful startup (which is what applies the
working mode to the device) leaves the Cleanup-Armed flag set. -/
theorem working_mode_frame (M : Termios) (hM : M.c_lflag < 2 ^ 32)
    (hcc : M.c_cc.length = NCCS) :
    (workingModeOf M).c_iflag = M.c_iflag ∧
    (workingModeOf M).c_oflag = M.c_oflag ∧
    (workingModeOf M).c_cflag = M.c_cflag ∧
    (workingModeOf M).c_lflag &&& ICANON = 0 ∧
    (workingModeOf M).c_lflag &&& ECHO = 0 ∧
    (∀ i, i ≠ 1 → i ≠ 3 →
      (workingModeOf M).c_lflag.testBit i = M.c_lflag.testBit i) ∧
    (workingModeOf M).c_cc[VQUIT]? = some QUIT_SENTINEL ∧
    (∀ j, j ≠ VQUIT → (workingModeOf M).c_cc[j]? = M.c_cc[j]?) ∧
    (∀ env : Env, 1 ≤ env.openRet → 0 ≤ env.pgrpRet →
      env.setpgrpOk = true → env.getattrOk = true → env.setattrOk = true →
      (startupState env).map (fun s => s.globals.cleanupP) = some true) := by
  refine ⟨rfl, rfl, rfl, ?_, ?_, ?_, ?_, ?_, ?_⟩
  · apply Nat.eq_of_testBit_eq
    intro i
    rw [Nat.testBit_land, workingModeOf_lflag_testBit, icanon_testBit,
      Nat.zero_testBit]
    by_cases h : i = 1 <;> simp [h]
  · apply Nat.eq_of_testBit_eq
    intro i
    rw [Nat.testBit_land, workingModeOf_lflag_testBit, echo_testBit,
      Nat.zero_testBit]
    by_cases h : i = 3 <;> simp [h]
  · intro i hi1 hi3
    rw [workingModeOf_lflag_testBit]
    by_cases hlt : i < 32
    · simp [hlt, hi1, hi3]
    · rw [lflag_testBit_high hM (by omega)]
      simp [hlt]
  · show (M.c_cc.set VQUIT QUIT_SENTINEL)[VQUIT]? = some QUIT_SENTINEL
    exact List.getElem?_set_eq_of_lt QUIT_SENTINEL (by rw [hcc]; decide)
  · intro j hj
    show (M.c_cc.set VQUIT QUIT_SENTINEL)[j]? = M.c_cc[j]?
    exact List.getElem?_set_ne (fun he => hj he.symm)
  · intro env e1 e2 e3 e4 e5
    have h1n : ¬ env.openRet < 1 := by omega
    have h2n : ¬ env.pgrpRet < 0 := by omega
    simp [startupState, startup, h1n, h2n, e3, e4, e5]

/-- Witness for C5 at the concrete original mode. -/
theorem working_mode_frame_witness :
    (sampleAttrs.c_lflag < 2 ^ 32 ∧ sampleAttrs.c_cc.length = NCCS) ∧
    ((workingModeOf sampleAttrs).c_iflag = sampleAttrs.c_iflag ∧
     (workingModeOf sampleAttrs).c_oflag = sampleAttrs.c_oflag ∧
     (workingModeOf sampleAttrs).c_cflag = sampleAttrs.c_cflag ∧
     (workingModeOf sampleAttrs).c_lflag &&& ICANON = 0 ∧
     (workingModeOf sampleAttrs).c_lflag &&& ECHO = 0 ∧
     (∀ i, i ≠ 1 → i ≠ 3 →
       (workingModeOf sampleAttrs).c_lflag.testBit i =
         sampleAttrs.c_lflag.testBit i) ∧
     (workingModeOf sampleAttrs).c_cc[VQUIT]? = some QUIT_SENTINEL ∧
     (∀ j, j ≠ VQUIT →
       (workingModeOf sampleAttrs).c_cc[j]? = sampleAttrs.c_cc[j]?) ∧
     (∀ env : Env, 1 ≤ env.openRet → 0 ≤ env.pgrpRet →
       env.setpgrpOk = true → env.getattrOk = true →
       env.setattrOk = true →
       (startupState env).map (fun s => s.globals.cleanupP) = some true)) :=
  ⟨⟨by decide, by decide⟩,
   working_mode_frame sampleAttrs (by decide) (by decide)⟩

/-- C6, counterexample: teardown is not restricted to the restore and
the close: from a concrete armed state its effect trace contains a
formatted-output printf call (and the perror path is likewise stdio),
which is not an asynchronous-signal-safe primitive. -/
theorem cleanup_performs_formatted_output :
    Effect.ePrintf msgResetting ∈ (cleanup armedSys).2 ∧
    isStdioEff (Effect.ePrintf msgResetting) = true ∧
    isRestoreEff (Effect.ePrintf msgResetting) = false ∧
    isCloseEff (Effect.ePrintf msgResetting) = false := by
  decide

/-- C6, amended: teardown touches no program global (its only state
effects are the attribute restore and the close of the handle), and its
effect trace consists only of restore attempts, close attempts and
formatted stdio output; the formatted printf is present exactly when the
flag is armed, so the path is not free of formatted output. -/
theorem cleanup_effect_profile (s : Sys) :
    (cleanup s).1.globals = s.globals ∧
    ((cleanup s).2.all fun e =>
      isRestoreEff e || isCloseEff e || isStdioEff e) = true ∧
    ((Effect.ePrintf msgResetting ∈ (cleanup s).2) ↔
      s.globals.cleanupP = true) := by
  refine ⟨cleanup_globals s, ?_, ?_⟩ <;>
    by_cases h : s.globals.cleanupP <;> by_cases h2 : s.fdValid <;>
      simp [cleanup, h, h2, isRestoreEff, isCloseEff, isStdioEff]

/-- C7: on the input byte a, interrupted read, byte b, end-of-input
character, the read loop from the concrete armed state echoes a, emits
nothing for the interruption, echoes b, and then runs the terminate path
exactly once: the end-of-input report followed by one restore, one close
and one exit with status 0. -/
theorem read_loop_scenario_trace :
    (readLoop scenarioInput armedSys).2.1 =
      [Effect.eEchoTyped 97, Effect.eEchoTyped 98,
       Effect.ePrintf msgEofRaw, Effect.ePrintf msgResetting,
       Effect.eTcsetattr 3 sampleAttrs, Effect.eClose 3,
       Effect.eExit 0] ∧
    (readLoop scenarioInput armedSys).2.2 = Outcome.exited 0 ∧
    countExits ((readLoop scenarioInput armedSys).2.1) = 1 ∧
    countRestores ((readLoop scenarioInput armedSys).2.1) = 1 ∧
    countCloses ((readLoop scenarioInput armedSys).2.1) = 1 := by
  decide

/-- C8: interrupt transparency.  The notify-only handlers return the
state unchanged and emit exactly one fixed raw write each (so they never
terminate the process and mutate no guard state), and the read loop
after an interrupted-read indication is literally the read loop on the
remaining input: the next byte is classified exactly as in a run with no
signal delivered. -/
theorem interrupt_transparency (s : Sys) (rs : List ReadResult) :
    (handler2 s).1 = s ∧
    (handler2 s).2 = [Effect.eWrite "Async action on sigint (2)\n"] ∧
    (handler3 s).1 = s ∧
    (handler3 s).2 = [Effect.eWrite "Async action on sigquit (3)\n"] ∧
    readLoop (ReadResult.errIntr :: rs) s = readLoop rs s :=
  ⟨rfl, rfl, rfl, rfl, rfl⟩

/-- C9: a zero-byte read and a one-byte read of the end-of-input
character terminate the same way: identical final state, identical
effect trace apart from the leading diagnostic message (both funnel
through the same exit_handler path), and the same exit status 0 — the
status every terminating path uses. -/
theorem eof_equivalence (s : Sys) :
    (readLoop [ReadResult.zero] s).1 =
      (readLoop [ReadResult.byte CEOF] s).1 ∧
    ((readLoop [ReadResult.zero] s).2.1).tail =
      ((readLoop [ReadResult.byte CEOF] s).2.1).tail ∧
    (readLoop [ReadResult.zero] s).2.2 = Outcome.exited 0 ∧
    (readLoop [ReadResult.byte CEOF] s).2.2 = Outcome.exited 0 ∧
    (∀ sig : Nat, (exit_handler sig s).2.2 = 0) :=
  ⟨rfl, rfl, rfl, rfl, fun _ => rfl⟩

/-- C10: the success test of the open is the returned descriptor being
at least 1, so a successful open that returns descriptor 0 is treated
as failure: the run reports the device unavailable and terminates (with
no attribute write, only the close and the exit). -/
theorem fd_zero_treated_as_failure :
    openSucceededOS 0 = true ∧
    startup envFd0 =
      StartupResult.failed
        [Effect.eOpenCall, Effect.ePerror "open /dev/tty",
         Effect.eClose 0, Effect.eExit 0] 0 ∧
    countRestores (startupTrace envFd0) = 0 := by
  decide

end Catcher
